import Mathlib

/-!
Verification of the decay-and-milestone core of the nicotine tracker
(src/main.py) against its natural-language specification.

Modelling conventions:
* Durations and timestamps are rational numbers of hours.  An absolute
  `datetime` is represented by its rational hour offset from an arbitrary
  epoch; `datetime.combine(d, t)` becomes `24 * day + hourOfDay`.
* The floating-point decay formula `dose * 0.5 ** (t / half_life)`
  (main.py line 97 and line 107) is modelled over the reals with real
  exponentiation (`rpow`).
* `np.linspace(0, total, n)` is modelled exactly: `n` points, the `i`-th
  being `total * i / (n - 1)`.
* The Streamlit control flow (st.error / st.stop, main.py lines 62-74) is
  modelled by an `Except`: `Except.error` means evaluation was withheld
  before any curve, series or milestone output was produced.
-/

namespace HalfLifeTracker

/-- Fixed nicotine half-life, main.py line 28: `half_life = 2.0`. -/
def half_life : ℚ := 2

/-- One entry of the static milestone table (main.py lines 110-120). -/
structure Milestone where
  time : ℚ
  label : String
deriving DecidableEq, Repr

/-- The fixed milestone table, main.py lines 110-120. -/
def milestones : List Milestone :=
  [ ⟨33/100, "Heart Rate Normalizes"⟩
  , ⟨8, "Oxygen Levels Normalize"⟩
  , ⟨24, "Carbon Monoxide Eliminated"⟩
  , ⟨48, "Improved Taste"⟩
  , ⟨72, "Cravings Drop"⟩
  , ⟨120, "Lungs Improve"⟩
  , ⟨168, "Energy Increased"⟩
  , ⟨336, "Improved Circulation"⟩
  , ⟨720, "Lung Health Improvement"⟩ ]

/-- `np.linspace 0 stop n` (main.py line 96): `n` evenly spaced points
from `0` to `stop` inclusive, the `i`-th point being `stop * i / (n-1)`. -/
def linspace (stop : ℚ) (n : ℕ) : List ℚ :=
  (List.range n).map (fun (i : ℕ) => stop * (i : ℚ) / ((n : ℚ) - 1))

/-- The remaining-amount formula of main.py lines 97 and 107:
`dose_amount * (0.5 ** (elapsed / half_life))`, over the reals. -/
noncomputable def remaining_amount (dose_amount hl elapsed : ℝ) : ℝ :=
  dose_amount * (1 / 2 : ℝ) ^ (elapsed / hl)

/-- The elapsed-hours sample grid of `calculate_nicotine_decay`
(main.py lines 95-96): `np.linspace(0, time_diff + future_time, time_points)`. -/
def time_array (time_diff future_time : ℚ) (time_points : ℕ) : List ℚ :=
  linspace (time_diff + future_time) time_points

/-- Result record of `calculate_nicotine_decay` (main.py lines 94-99). -/
structure DecayResult where
  timeArray : List ℚ
  remaining : List ℝ
  timestamps : List ℚ

/-- `calculate_nicotine_decay` (main.py lines 94-99): the elapsed-hours
grid, the remaining amount at each grid point, and the absolute timestamp
`dose_datetime + timedelta(hours=hr)` for each grid point. -/
noncomputable def calculate_nicotine_decay (dose_amount : ℝ) (hl : ℚ)
    (time_diff future_time : ℚ) (time_points : ℕ) (dose_datetime : ℚ) :
    DecayResult :=
  let ta := time_array time_diff future_time time_points
  { timeArray := ta
  , remaining := ta.map (fun t => remaining_amount dose_amount (hl : ℝ) (t : ℝ))
  , timestamps := ta.map (fun t => dose_datetime + t) }

/-- The scalar current remaining amount, main.py line 107:
`dose_amount * (0.5 ** (time_diff / half_life))`. -/
noncomputable def current_remaining_amount (dose_amount : ℝ) (hl time_diff : ℚ) : ℝ :=
  remaining_amount dose_amount (hl : ℝ) (time_diff : ℝ)

/-- Classification outcome of one milestone in the text list
(main.py lines 192-198). -/
inductive MilestoneStatus where
  | upcoming (hoursLeft : ℚ)
  | achieved (achievedAt : ℚ)
  | omitted
deriving DecidableEq, Repr

/-- `(milestone_time - current_datetime).total_seconds() / 3600`
(main.py line 195), with both instants in hours from the epoch. -/
def hours_left (milestone_time current_datetime : ℚ) : ℚ :=
  ((milestone_time - current_datetime) * 3600) / 3600

/-- The milestone classification loop body (main.py lines 192-198):
upcoming when `current < milestone_time ≤ current + future_time` (with the
hours remaining), achieved when `milestone_time ≤ current`, otherwise the
milestone is omitted from the list. -/
def classify_milestone (dose_datetime current_datetime future_time : ℚ)
    (m : Milestone) : MilestoneStatus :=
  if dose_datetime + m.time > current_datetime ∧
      dose_datetime + m.time ≤ current_datetime + future_time then
    .upcoming (hours_left (dose_datetime + m.time) current_datetime)
  else if dose_datetime + m.time ≤ current_datetime then
    .achieved (dose_datetime + m.time)
  else
    .omitted

/-- The milestone-marker visibility test (main.py line 150):
`dose_datetime <= milestone_time <= dose_datetime + timedelta(hours=time_array[-1])`,
where `lastSample` is the final elapsed-hours value of the sample grid. -/
def milestone_plotted (dose_datetime lastSample : ℚ) (m : Milestone) : Prop :=
  dose_datetime ≤ dose_datetime + m.time ∧
    dose_datetime + m.time ≤ dose_datetime + lastSample

instance (d l : ℚ) (m : Milestone) : Decidable (milestone_plotted d l m) :=
  inferInstanceAs (Decidable (_ ∧ _))

/-- Membership of a milestone in the textual upcoming list
(main.py line 194). -/
def milestone_upcoming (dose_datetime current_datetime future_time : ℚ)
    (m : Milestone) : Prop :=
  dose_datetime + m.time > current_datetime ∧
    dose_datetime + m.time ≤ current_datetime + future_time

instance (d c f : ℚ) (m : Milestone) : Decidable (milestone_upcoming d c f m) :=
  inferInstanceAs (Decidable (_ ∧ _))

/-- A wall-clock instant: a calendar day index and the hour of day.
`datetime.combine` / `datetime.now()` (main.py lines 66-67). -/
structure Instant where
  day : ℤ
  hourOfDay : ℚ
deriving DecidableEq, Repr

/-- Hours from the epoch of an instant. -/
def Instant.toHours (t : Instant) : ℚ := 24 * t.day + t.hourOfDay

/-- Successful output of one evaluation pass: everything computed after
the two validation gates (main.py lines 94-198).  The remaining-amount
series is recovered from `timeArray` by `remaining_amount`. -/
structure AppOutput where
  time_diff : ℚ
  timeArray : List ℚ
  timestamps : List ℚ
  milestoneStatuses : List MilestoneStatus
deriving Repr

/-- The validation-and-evaluation flow of main.py lines 44-198 for one
run.  `nowDay`/`nowHour` are `datetime.now()` split into the current date and
the hour of day; the placeholder is the current date with midnight
(main.py lines 44-45).  Line 62: if the inputs equal the placeholder,
stop with an error.  Line 72: if the elapsed time is negative, stop with
an error.  Otherwise evaluation proceeds. -/
def runApp (dose_date : ℤ) (dose_time : ℚ) (now : Instant)
    (future_time : ℚ) (time_points : ℕ) : Except String AppOutput :=
  let placeholder_date : ℤ := now.day
  let placeholder_time : ℚ := 0
  if dose_date = placeholder_date ∧ dose_time = placeholder_time then
    .error "Please enter the date and time of your last nicotine use."
  else
    let dose_datetime : ℚ := 24 * dose_date + dose_time
    let time_diff : ℚ := now.toHours - dose_datetime
    if time_diff < 0 then
      .error "Last nicotine use time cannot be in the future."
    else
      let ta := time_array time_diff future_time time_points
      .ok { time_diff := time_diff
          , timeArray := ta
          , timestamps := ta.map (fun t => dose_datetime + t)
          , milestoneStatuses :=
              milestones.map
                (classify_milestone dose_datetime (Instant.toHours now) future_time) }

/-- Whether a classification outcome is an upcoming entry. -/
def MilestoneStatus.isUpcoming : MilestoneStatus → Bool
  | .upcoming _ => true
  | _ => false

/-- Whether a classification outcome is an achieved entry. -/
def MilestoneStatus.isAchieved : MilestoneStatus → Bool
  | .achieved _ => true
  | _ => false

/-- Whether a classification outcome is omitted from the list. -/
def MilestoneStatus.isOmitted : MilestoneStatus → Bool
  | .omitted => true
  | _ => false

/-! ### Helper lemmas about the sample grid -/

lemma length_time_array (time_diff future_time : ℚ) (n : ℕ) :
    (time_array time_diff future_time n).length = n := by
  rw [time_array, linspace, List.length_map, List.length_range]

lemma get_time_array (time_diff future_time : ℚ) (n i : ℕ) (h : i < n) :
    (time_array time_diff future_time n).get
        ⟨i, (length_time_array time_diff future_time n).symm ▸ h⟩
      = (time_diff + future_time) * i / ((n : ℚ) - 1) := by
  rw [List.get_eq_getElem]
  simp only [time_array, linspace, List.getElem_map, List.getElem_range]

/-! ### C1: the decay formula at every sample point and at the current time -/

/-- C1: for every dose_amount ≥ 0, half_life > 0 and elapsed time ≥ 0, the
decay evaluator returns `dose_amount * 0.5 ^ (elapsed_hours / half_life)` at
every sample point, the single scalar current remaining amount is the same
formula evaluated at the elapsed time since the dose, and dose_amount = 20,
half_life = 2, elapsed = 4 gives exactly 5. -/
theorem decay_formula_everywhere (dose_amount : ℝ)
    (hl time_diff future_time dose_datetime : ℚ) (time_points : ℕ)
    (hdose : 0 ≤ dose_amount) (hhl : 0 < hl) (htd : 0 ≤ time_diff) :
    (calculate_nicotine_decay dose_amount hl time_diff future_time time_points
        dose_datetime).remaining
      = (time_array time_diff future_time time_points).map
          (fun t => dose_amount * (1 / 2 : ℝ) ^ ((t : ℝ) / (hl : ℝ))) ∧
    current_remaining_amount dose_amount hl time_diff
      = dose_amount * (1 / 2 : ℝ) ^ ((time_diff : ℝ) / (hl : ℝ)) ∧
    current_remaining_amount 20 2 4 = 5 := by
  refine ⟨rfl, rfl, ?_⟩
  have h2 : (((4 : ℚ) : ℝ)) / (((2 : ℚ) : ℝ)) = ((2 : ℕ) : ℝ) := by norm_num
  rw [current_remaining_amount, remaining_amount, h2, Real.rpow_natCast]
  norm_num

/-- Witness for `decay_formula_everywhere` at dose 20 mg, half-life 2 h,
elapsed 4 h. -/
theorem decay_formula_everywhere_witness :
    current_remaining_amount 20 2 4 = 5 :=
  (decay_formula_everywhere 20 2 4 24 0 500 (by norm_num) (by norm_num)
    (by norm_num)).2.2

/-! ### C4: algebraic properties of the remaining-amount function -/

/-- C4: for every half_life > 0, the remaining amount at elapsed time 0 is
the dose, the remaining amount at elapsed time half_life is half the dose,
and for a positive dose the remaining-amount function is strictly decreasing
in the elapsed time. -/
theorem remaining_amount_algebra (dose_amount hl : ℝ) (hhl : 0 < hl) :
    remaining_amount dose_amount hl 0 = dose_amount ∧
    remaining_amount dose_amount hl hl = dose_amount / 2 ∧
    (0 < dose_amount → ∀ t1 t2 : ℝ, t1 < t2 →
      remaining_amount dose_amount hl t2 < remaining_amount dose_amount hl t1) := by
  refine ⟨?_, ?_, ?_⟩
  · rw [remaining_amount, zero_div, Real.rpow_zero, mul_one]
  · rw [remaining_amount, div_self hhl.ne', Real.rpow_one]; ring
  · intro hpos t1 t2 hlt
    rw [remaining_amount, remaining_amount]
    have hexp : t1 / hl < t2 / hl := (div_lt_div_iff_of_pos_right hhl).mpr hlt
    exact mul_lt_mul_of_pos_left
      (Real.rpow_lt_rpow_of_exponent_gt (by norm_num) (by norm_num) hexp) hpos

/-- Witness for `remaining_amount_algebra` with half-life 2 h: after one
half-life 20 mg halves. -/
theorem remaining_amount_algebra_witness :
    remaining_amount 20 2 2 = 20 / 2 :=
  (remaining_amount_algebra 20 2 (by norm_num)).2.1

/-! ### C5: bounds on the remaining amount -/

/-- C5: for every dose_amount ≥ 0, half_life > 0 and elapsed ≥ 0 the computed
remaining amount satisfies 0 ≤ remaining ≤ dose_amount, and for a positive
dose it is strictly positive, never clamped to zero. -/
theorem remaining_amount_bounded (dose_amount hl t : ℝ)
    (hdose : 0 ≤ dose_amount) (hhl : 0 < hl) (ht : 0 ≤ t) :
    0 ≤ remaining_amount dose_amount hl t ∧
    remaining_amount dose_amount hl t ≤ dose_amount ∧
    (0 < dose_amount → 0 < remaining_amount dose_amount hl t) := by
  simp only [remaining_amount]
  have hpow : (0 : ℝ) < (1 / 2 : ℝ) ^ (t / hl) :=
    Real.rpow_pos_of_pos (by norm_num) _
  refine ⟨mul_nonneg hdose hpow.le, ?_, fun hd => mul_pos hd hpow⟩
  have h1 : (1 / 2 : ℝ) ^ (t / hl) ≤ 1 :=
    Real.rpow_le_one (by norm_num) (by norm_num) (div_nonneg ht hhl.le)
  calc dose_amount * (1 / 2 : ℝ) ^ (t / hl)
      ≤ dose_amount * 1 := mul_le_mul_of_nonneg_left h1 hdose
    _ = dose_amount := mul_one _

/-- Witness for `remaining_amount_bounded` at dose 20 mg, half-life 2 h,
elapsed 4 h. -/
theorem remaining_amount_bounded_witness :
    0 ≤ remaining_amount 20 2 4 ∧ remaining_amount 20 2 4 ≤ 20 :=
  ⟨(remaining_amount_bounded 20 2 4 (by norm_num) (by norm_num) (by norm_num)).1,
   (remaining_amount_bounded 20 2 4 (by norm_num) (by norm_num) (by norm_num)).2.1⟩

lemma time_array_first (time_diff future_time : ℚ) (n : ℕ)
    (h : 0 < (time_array time_diff future_time n).length) :
    (time_array time_diff future_time n).get ⟨0, h⟩ = 0 := by
  have h0 : 0 < n := by
    simpa [length_time_array] using h
  simpa using get_time_array time_diff future_time n 0 h0

lemma time_array_last (time_diff future_time : ℚ) (n : ℕ) (hn : 2 ≤ n)
    (h : n - 1 < (time_array time_diff future_time n).length) :
    (time_array time_diff future_time n).get ⟨n - 1, h⟩
      = time_diff + future_time := by
  have hlt : n - 1 < n := Nat.sub_lt (by omega) one_pos
  have hcast : ((n - 1 : ℕ) : ℚ) = (n : ℚ) - 1 := by
    have : 1 ≤ n := by omega
    push_cast [Nat.cast_sub this]
    ring
  have hne : ((n : ℚ) - 1) ≠ 0 := by
    have : (2 : ℚ) ≤ (n : ℚ) := by exact_mod_cast hn
    linarith
  have := get_time_array time_diff future_time n (n - 1) hlt
  rw [hcast] at this
  rw [show (time_array time_diff future_time n).get ⟨n - 1, h⟩
        = (time_diff + future_time) * ((n : ℚ) - 1) / ((n : ℚ) - 1) from this]
  exact mul_div_cancel_right₀ _ hne

lemma time_array_spacing (time_diff future_time : ℚ) (n : ℕ)
    (i : ℕ) (hi : i < (time_array time_diff future_time n).length)
    (hi1 : i + 1 < (time_array time_diff future_time n).length) :
    (time_array time_diff future_time n).get ⟨i + 1, hi1⟩
        - (time_array time_diff future_time n).get ⟨i, hi⟩
      = (time_diff + future_time) / ((n : ℚ) - 1) := by
  have hin : i < n := by simpa [length_time_array] using hi
  have hi1n : i + 1 < n := by simpa [length_time_array] using hi1
  rw [show (time_array time_diff future_time n).get ⟨i + 1, hi1⟩
        = (time_diff + future_time) * ((i + 1 : ℕ) : ℚ) / ((n : ℚ) - 1) from
      get_time_array time_diff future_time n (i + 1) hi1n,
    show (time_array time_diff future_time n).get ⟨i, hi⟩
        = (time_diff + future_time) * (i : ℚ) / ((n : ℚ) - 1) from
      get_time_array time_diff future_time n i hin]
  push_cast
  ring

/-! ### C3: shape of the sample sequence -/

/-- C3: for every sample count ≥ 2, elapsed time ≥ 0 and future horizon ≥ 0
the sample sequence of the decay evaluator has exactly `time_points` points,
its first elapsed-hours value is 0, its last is the elapsed time plus the
future horizon, consecutive points are uniformly spaced, and the
absolute timestamp of each sample is the dose timestamp plus its elapsed hours. -/
theorem sample_grid_shape (dose_amount : ℝ)
    (hl time_diff future_time dose_datetime : ℚ) (time_points : ℕ)
    (hn : 2 ≤ time_points) (htd : 0 ≤ time_diff) (hft : 0 ≤ future_time) :
    (calculate_nicotine_decay dose_amount hl time_diff future_time time_points
        dose_datetime).timeArray = time_array time_diff future_time time_points ∧
    (time_array time_diff future_time time_points).length = time_points ∧
    (∀ h : 0 < (time_array time_diff future_time time_points).length,
      (time_array time_diff future_time time_points).get ⟨0, h⟩ = 0) ∧
    (∀ h : time_points - 1 < (time_array time_diff future_time time_points).length,
      (time_array time_diff future_time time_points).get ⟨time_points - 1, h⟩
        = time_diff + future_time) ∧
    (∀ i : ℕ, ∀ hi : i < (time_array time_diff future_time time_points).length,
      ∀ hi1 : i + 1 < (time_array time_diff future_time time_points).length,
      (time_array time_diff future_time time_points).get ⟨i + 1, hi1⟩
          - (time_array time_diff future_time time_points).get ⟨i, hi⟩
        = (time_diff + future_time) / ((time_points : ℚ) - 1)) ∧
    (calculate_nicotine_decay dose_amount hl time_diff future_time time_points
        dose_datetime).timestamps
      = (time_array time_diff future_time time_points).map
          (fun t => dose_datetime + t) := by
  refine ⟨rfl, length_time_array _ _ _, time_array_first _ _ _,
    time_array_last _ _ _ hn, time_array_spacing _ _ _, rfl⟩

/-- Witness for `sample_grid_shape` at 50 points over 4 h elapsed plus a
24 h horizon. -/
theorem sample_grid_shape_witness :
    (time_array 4 24 50).length = 50 :=
  (sample_grid_shape 20 2 4 24 0 50 (by norm_num) (by norm_num)
    (by norm_num)).2.1

/-! ### C2: the milestone classification is a total partition -/

/-- C2: at every evaluation instant each of the 9 milestones of the fixed
table falls into exactly one of achieved, upcoming, omitted-as-out-of-horizon;
achieved holds iff milestone_time ≤ current_time, upcoming holds iff
current_time < milestone_time ≤ current_time + future_horizon, and the
milestone is omitted otherwise. -/
theorem milestone_classification_partition
    (dose_datetime current_datetime future_time : ℚ) :
    milestones.length = 9 ∧
    ∀ m ∈ milestones,
      (((classify_milestone dose_datetime current_datetime future_time m).isAchieved
          = true) ↔ dose_datetime + m.time ≤ current_datetime) ∧
      (((classify_milestone dose_datetime current_datetime future_time m).isUpcoming
          = true) ↔ (current_datetime < dose_datetime + m.time ∧
            dose_datetime + m.time ≤ current_datetime + future_time)) ∧
      (((classify_milestone dose_datetime current_datetime future_time m).isOmitted
          = true) ↔ (¬(dose_datetime + m.time ≤ current_datetime) ∧
            ¬(current_datetime < dose_datetime + m.time ∧
              dose_datetime + m.time ≤ current_datetime + future_time))) ∧
      (((classify_milestone dose_datetime current_datetime future_time m).isAchieved
            = true ∧
          (classify_milestone dose_datetime current_datetime future_time m).isUpcoming
            = false ∧
          (classify_milestone dose_datetime current_datetime future_time m).isOmitted
            = false) ∨
        ((classify_milestone dose_datetime current_datetime future_time m).isAchieved
            = false ∧
          (classify_milestone dose_datetime current_datetime future_time m).isUpcoming
            = true ∧
          (classify_milestone dose_datetime current_datetime future_time m).isOmitted
            = false) ∨
        ((classify_milestone dose_datetime current_datetime future_time m).isAchieved
            = false ∧
          (classify_milestone dose_datetime current_datetime future_time m).isUpcoming
            = false ∧
          (classify_milestone dose_datetime current_datetime future_time m).isOmitted
            = true)) := by
  refine ⟨rfl, ?_⟩
  intro m _
  unfold classify_milestone
  split_ifs with h1 h2 <;>
    simp only [MilestoneStatus.isAchieved, MilestoneStatus.isUpcoming,
      MilestoneStatus.isOmitted, Bool.false_eq_true, false_iff, true_iff,
      Bool.true_eq_false, and_self, and_false, false_and, true_and, and_true,
      or_false, false_or, not_and, not_le, not_lt, gt_iff_lt]
  · refine ⟨h1.1, h1, fun hc hcon => ?_⟩
    have := hcon hc
    linarith [h1.2]
  · exact ⟨h2, fun hc => absurd hc (not_lt.mpr h2),
      fun hc hcon => absurd hc (not_lt.mpr h2)⟩
  · exact ⟨not_le.mp h2, fun hc => not_le.mp (fun hle => h1 ⟨hc, hle⟩),
      not_le.mp h2, fun hc => not_le.mp (fun hle => h1 ⟨hc, hle⟩)⟩

/-- Witness for `milestone_classification_partition`: the first table entry
at dose time 0 evaluated at hour 1 with a 24 h horizon is classified
achieved exactly because its milestone time is at most the current time. -/
theorem milestone_classification_partition_witness :
    ((classify_milestone 0 1 24 ⟨33/100, "Heart Rate Normalizes"⟩).isAchieved
        = true) ↔ (0 : ℚ) + (33/100 : ℚ) ≤ 1 :=
  ((milestone_classification_partition 0 1 24).2
    ⟨33/100, "Heart Rate Normalizes"⟩
    (by unfold milestones; exact List.mem_cons_self _ _)).1

/-! ### C6: hours remaining for upcoming milestones -/

/-- C6: every milestone classified upcoming reports hours remaining equal to
milestone_time minus current_time; for a dose at hour 0 evaluated at hour 1
with a 24 h horizon, the 0.33 h milestone is achieved and the 8 h milestone
is upcoming with 7.0 hours left. -/
theorem upcoming_hours_left :
    (∀ dose_datetime current_datetime future_time : ℚ, ∀ m : Milestone,
      ∀ hrs : ℚ,
      classify_milestone dose_datetime current_datetime future_time m
          = .upcoming hrs →
      hrs = (dose_datetime + m.time) - current_datetime) ∧
    (⟨33/100, "Heart Rate Normalizes"⟩ : Milestone) ∈ milestones ∧
    (⟨8, "Oxygen Levels Normalize"⟩ : Milestone) ∈ milestones ∧
    classify_milestone 0 1 24 ⟨33/100, "Heart Rate Normalizes"⟩
      = .achieved (33/100) ∧
    classify_milestone 0 1 24 ⟨8, "Oxygen Levels Normalize"⟩
      = .upcoming 7 := by
  refine ⟨?_, ?_, ?_, ?_, ?_⟩
  case refine_2 => unfold milestones; exact List.mem_cons_self _ _
  case refine_3 =>
    unfold milestones
    exact List.mem_cons_of_mem _ (List.mem_cons_self _ _)
  case refine_4 => norm_num [classify_milestone, hours_left]
  case refine_5 => norm_num [classify_milestone, hours_left]
  intro dose_datetime current_datetime future_time m hrs h
  unfold classify_milestone at h
  split_ifs at h with h1 h2
  · injection h with h'
    rw [← h', hours_left]
    rw [mul_div_assoc]
    norm_num

/-- Witness for `upcoming_hours_left`: applying the general law to the 8 h
milestone classified upcoming at hour 1 gives 7 hours left. -/
theorem upcoming_hours_left_witness :
    (7 : ℚ) = ((0 : ℚ) + (8 : ℚ)) - 1 :=
  upcoming_hours_left.1 0 1 24 ⟨8, "Oxygen Levels Normalize"⟩ 7
    upcoming_hours_left.2.2.2.2

/-! ### C7: the two milestone visibility windows differ -/

/-- C7: a milestone marker is placed on the chart iff its absolute time lies
in the window from the dose timestamp to the dose timestamp plus the last
sampled elapsed-hours value (which equals elapsed + future_horizon, the full
sample span), while the textual upcoming list uses the window from the
current time (exclusive) to the current time plus future_horizon
(inclusive); the two windows genuinely differ: a milestone can be plotted on
the chart yet absent from the upcoming list. -/
theorem visibility_window_asymmetry (dose_amount : ℝ)
    (hl time_diff future_time dose_datetime current_datetime : ℚ)
    (time_points : ℕ) (hn : 2 ≤ time_points) :
    (∀ h : time_points - 1
        < ((calculate_nicotine_decay dose_amount hl time_diff future_time
            time_points dose_datetime).timeArray).length,
      ((calculate_nicotine_decay dose_amount hl time_diff future_time
          time_points dose_datetime).timeArray).get ⟨time_points - 1, h⟩
        = time_diff + future_time) ∧
    (∀ m : Milestone,
      milestone_plotted dose_datetime (time_diff + future_time) m ↔
        (dose_datetime ≤ dose_datetime + m.time ∧
          dose_datetime + m.time ≤ dose_datetime + (time_diff + future_time))) ∧
    (∀ m : Milestone,
      milestone_upcoming dose_datetime current_datetime future_time m ↔
        (current_datetime < dose_datetime + m.time ∧
          dose_datetime + m.time ≤ current_datetime + future_time)) ∧
    (milestone_plotted 0 (1 + 24) ⟨33/100, "Heart Rate Normalizes"⟩ ∧
      ¬ milestone_upcoming 0 1 24 ⟨33/100, "Heart Rate Normalizes"⟩) := by
  refine ⟨time_array_last _ _ _ hn, fun m => Iff.rfl, fun m => Iff.rfl,
    by norm_num [milestone_plotted], by norm_num [milestone_upcoming]⟩

/-- Witness for `visibility_window_asymmetry`: with a dose at hour 0
evaluated at hour 1 under a 24 h horizon, the 0.33 h milestone is plotted on
the chart but missing from the textual upcoming list. -/
theorem visibility_window_asymmetry_witness :
    milestone_plotted 0 (1 + 24) ⟨33/100, "Heart Rate Normalizes"⟩ ∧
      ¬ milestone_upcoming 0 1 24 ⟨33/100, "Heart Rate Normalizes"⟩ :=
  (visibility_window_asymmetry 20 2 1 24 0 1 50 (by norm_num)).2.2.2

/-! ### C8: the sentinel combination withholds evaluation -/

/-- C8: whenever the dose date and time inputs equal the sentinel
combination (the current date together with midnight), evaluation is withheld:
the run produces an error indicator and no decay curve, sample series or
milestone classification. -/
theorem sentinel_blocks_evaluation (dose_date : ℤ) (dose_time : ℚ)
    (now : Instant) (future_time : ℚ) (time_points : ℕ)
    (hdate : dose_date = now.day) (htime : dose_time = 0) :
    runApp dose_date dose_time now future_time time_points
      = .error "Please enter the date and time of your last nicotine use." := by
  simp only [runApp]
  rw [if_pos ⟨hdate, htime⟩]

/-- Witness for `sentinel_blocks_evaluation` on day 7 at 09:00. -/
theorem sentinel_blocks_evaluation_witness :
    runApp 7 0 ⟨7, 9⟩ 24 500
      = .error "Please enter the date and time of your last nicotine use." :=
  sentinel_blocks_evaluation 7 0 ⟨7, 9⟩ 24 500 rfl rfl

/-! ### C9: the future-timestamp check -/

/-- C9 counterexample: a dose timestamp not later than the evaluation time
is not always accepted — day 5 at midnight evaluated on day 5 at 06:00 is
earlier than the evaluation time, yet the run is withheld by the sentinel
check instead of proceeding. -/
theorem past_dose_not_always_accepted :
    24 * (5 : ℤ) + (0 : ℚ) ≤ (Instant.mk 5 6).toHours ∧
    runApp 5 0 ⟨5, 6⟩ 24 500
      = .error "Please enter the date and time of your last nicotine use." := by
  refine ⟨by norm_num [Instant.toHours], ?_⟩
  simp [runApp]

/-- C9 (amended): whenever the combined dose timestamp is strictly later
than the evaluation time, evaluation is blocked with the invalid-input
indicator and no output is produced; a dose timestamp equal to or earlier
than the evaluation time is accepted and evaluation proceeds, unless the
inputs equal the sentinel combination (the current date with midnight), in
which case the sentinel check withholds the run first. -/
theorem future_dose_blocked (dose_date : ℤ) (dose_time : ℚ) (now : Instant)
    (future_time : ℚ) (time_points : ℕ) (hhour : 0 ≤ now.hourOfDay) :
    (now.toHours < 24 * dose_date + dose_time →
      runApp dose_date dose_time now future_time time_points
        = .error "Last nicotine use time cannot be in the future.") ∧
    (24 * dose_date + dose_time ≤ now.toHours →
      ¬(dose_date = now.day ∧ dose_time = 0) →
      ∃ out, runApp dose_date dose_time now future_time time_points = .ok out ∧
        out.time_diff = now.toHours - (24 * dose_date + dose_time)) := by
  constructor
  · intro hfut
    have hns : ¬(dose_date = now.day ∧ dose_time = 0) := by
      rintro ⟨hd, ht⟩
      rw [hd, ht] at hfut
      rw [Instant.toHours] at hfut
      linarith
    simp only [runApp]
    rw [if_neg hns, if_pos (by linarith [sub_neg.mpr hfut])]
  · intro hle hns
    simp only [runApp]
    rw [if_neg hns, if_neg (not_lt.mpr (sub_nonneg.mpr hle))]
    exact ⟨_, rfl, rfl⟩

/-- Witness for `future_dose_blocked`: on day 0 at 05:00 a dose one hour in
the future (06:00) is blocked, while a dose at 01:00 is accepted with an
elapsed time of 4 hours. -/
theorem future_dose_blocked_witness :
    runApp 0 6 ⟨0, 5⟩ 24 500
        = .error "Last nicotine use time cannot be in the future." ∧
      ∃ out, runApp 0 1 ⟨0, 5⟩ 24 500 = .ok out ∧
        out.time_diff = (⟨0, 5⟩ : Instant).toHours - (24 * 0 + 1) :=
  ⟨(future_dose_blocked 0 6 ⟨0, 5⟩ 24 500 (by norm_num)).1
      (by norm_num [Instant.toHours]),
    (future_dose_blocked 0 1 ⟨0, 5⟩ 24 500 (by norm_num)).2
      (by norm_num [Instant.toHours]) (by norm_num)⟩

/-! ### C10: the sentinel cannot distinguish a genuine midnight dose -/

/-- C10: for every run in which the dose date equals the current date and
the dose time equals midnight, evaluation is withheld regardless of the
intent of the user: a genuine dose taken at midnight of the current day can
never be evaluated. -/
theorem midnight_dose_never_evaluated (now : Instant) (future_time : ℚ)
    (time_points : ℕ) :
    ∃ msg, runApp now.day 0 now future_time time_points
      = Except.error msg :=
  ⟨"Please enter the date and time of your last nicotine use.",
    by simp [runApp]⟩

end HalfLifeTracker
